import Mathlib

/-!
Verification of the zk-wordle core (`src/main.rs`) against its specification.

The Rust source is shallowly embedded below.  Letters are ranks `0..26`
stored as `Nat`; field scalars appearing in the constraint matrices and in
witness vectors are likewise modelled as `Nat` (every scalar that occurs in
this circuit is `0`, `1` or a rank below `26`, far below the field modulus,
so `Nat` arithmetic agrees with field arithmetic).  A Rust panic (an
out-of-bounds index, or an `unwrap` on an `Err`) is modelled by an
`Except.error`; the error tells which failure fired.

The proving backend (libspartan) is external to the repository.  Its
operations are modelled from the specification's interface contract
(§4.2, §4.4, §6, §7): each such definition carries a doc comment starting
`Modelled from the spec:`.
-/

namespace ZkWordle

/-- `const NUM_DIGITS: usize = 5` -/
def NUM_DIGITS : Nat := 5

/-- `const DIGIT_RANGE: usize = 26` -/
def DIGIT_RANGE : Nat := 26

/-- `struct GameInputs` — the hidden word and the guess, as letter ranks. -/
structure GameInputs where
  hidden_word : List Nat
  guess : List Nat
deriving DecidableEq

/-- `struct GameOutputs` — the two per-position feedback vectors. -/
structure GameOutputs where
  letter_in_word : List Bool
  letter_correct : List Bool
deriving DecidableEq

/-- `let num_cons = NUM_DIGITS * 2` (declared in `game_constraints`,
`prove_game` and `verify_game`). -/
def num_cons : Nat := NUM_DIGITS * 2

/-- `let num_vars = NUM_DIGITS * 2` -/
def num_vars : Nat := NUM_DIGITS * 2

/-- `let num_inputs = NUM_DIGITS * 2` -/
def num_inputs : Nat := NUM_DIGITS * 2

/-- The `A` entries pushed by the loop of `game_constraints` (lines 38–48):
for each `i`, `(i, hidden_char, 1)` and `(i + NUM_DIGITS, hidden_char, 1)`,
where `hidden_char = inputs.hidden_word[i]`. -/
def gc_A (inputs : GameInputs) : List (Nat × Nat × Nat) :=
  (List.range NUM_DIGITS).flatMap fun i =>
    [(i, inputs.hidden_word.getD i 0, 1),
     (i + NUM_DIGITS, inputs.hidden_word.getD i 0, 1)]

/-- The `B` entries pushed by the loop of `game_constraints`:
for each `i`, `(i, guess_char + DIGIT_RANGE, 1)` and
`(i + NUM_DIGITS, guess_char, 1)`, where `guess_char = inputs.guess[i]`. -/
def gc_B (inputs : GameInputs) : List (Nat × Nat × Nat) :=
  (List.range NUM_DIGITS).flatMap fun i =>
    [(i, inputs.guess.getD i 0 + DIGIT_RANGE, 1),
     (i + NUM_DIGITS, inputs.guess.getD i 0, 1)]

/-- The `C` entries pushed by the loop of `game_constraints`:
for each `i`, `(i, i, letter_in_word[i] as u8)` and
`(i + NUM_DIGITS, i + NUM_DIGITS, letter_correct[i] as u8)`. -/
def gc_C (outputs : GameOutputs) : List (Nat × Nat × Nat) :=
  (List.range NUM_DIGITS).flatMap fun i =>
    [(i, i, (outputs.letter_in_word.getD i false).toNat),
     (i + NUM_DIGITS, i + NUM_DIGITS, (outputs.letter_correct.getD i false).toNat)]

/-- The failure modes a round can hit.  The first three are Rust panics the
source can actually raise; `witnessConstraintViolation` is the error the
specification's taxonomy (§7) demands for a locally detected bad witness. -/
inductive RoundError where
  | indexOutOfBounds
  | shapeMismatch
  | proofDeserializationPanic
  | witnessConstraintViolation
deriving DecidableEq

/-- The backend's `Instance`: the declared shape together with the three
sparse matrices. -/
structure Instance where
  cons : Nat
  vars : Nat
  inputs : Nat
  A : List (Nat × Nat × Nat)
  B : List (Nat × Nat × Nat)
  C : List (Nat × Nat × Nat)
deriving DecidableEq, BEq

/-- Modelled from the spec: an entry list is consistent with the declared
shape when every row index is below `num_cons` and every column index is
within the declared variables, the constant-one column, and the
public-input slots (§4.2 ShapeMismatch, §7). -/
def entries_in_shape (nc nv ni : Nat) (M : List (Nat × Nat × Nat)) : Bool :=
  M.all fun e => decide (e.1 < nc) && decide (e.2.1 < nv + 1 + ni)

/-- Modelled from the spec: `Instance::new` fails with `ShapeMismatch` when
the matrices disagree with the declared variable/constraint counts
(§4.2, §7); otherwise it packages the shape and matrices. -/
def instance_new (nc nv ni : Nat) (A B C : List (Nat × Nat × Nat)) :
    Except RoundError Instance :=
  if entries_in_shape nc nv ni A && entries_in_shape nc nv ni B
      && entries_in_shape nc nv ni C then
    Except.ok ⟨nc, nv, ni, A, B, C⟩
  else
    Except.error RoundError.shapeMismatch

/-- A single `v[idx] = val` store: Rust panics when `idx` is out of
bounds. -/
def list_write (v : List Nat) (idx val : Nat) : Except RoundError (List Nat) :=
  if idx < v.length then Except.ok (v.set idx val)
  else Except.error RoundError.indexOutOfBounds

/-- The witness-assembly loop (`prove_game` lines 103–108, and the identical
dead loop at `game_constraints` lines 51–56): starting from
`vec![0; num_vars]`, for each `i` store `1` at `hidden_word[i]` and at
`guess[i] + DIGIT_RANGE`. -/
def assemble_vars (inputs : GameInputs) : Except RoundError (List Nat) :=
  (List.range NUM_DIGITS).foldlM
    (fun vars i => do
      let vars ← list_write vars (inputs.hidden_word.getD i 0) 1
      list_write vars (inputs.guess.getD i 0 + DIGIT_RANGE) 1)
    (List.replicate num_vars 0)

/-- The indices the witness-assembly loop writes to, in order. -/
def witness_write_indices (inputs : GameInputs) : List Nat :=
  (List.range NUM_DIGITS).flatMap fun i =>
    [inputs.hidden_word.getD i 0, inputs.guess.getD i 0 + DIGIT_RANGE]

/-- `game_constraints` (lines 28–61): builds the three entry lists, runs the
local `vars` loop of lines 51–56 on every iteration (its only observable
effect is an index-out-of-bounds panic), then calls
`Instance::new(...).unwrap()`.  In the source the entry pushes and the
local loop are interleaved inside one `for`; both orders give the same
result since the pushes are pure. -/
def game_constraints (inputs : GameInputs) (outputs : GameOutputs) :
    Except RoundError Instance := do
  let _ ← (List.range NUM_DIGITS).foldlM
    (fun _ _ => assemble_vars inputs) ([] : List Nat)
  instance_new num_cons num_vars num_inputs (gc_A inputs) (gc_B inputs)
    (gc_C outputs)

/-- `letter_in_word` as computed by `prove_game` (lines 77–80): for each
letter `h` of the hidden word, whether `h` occurs in the guess. -/
def letter_in_word (inputs : GameInputs) : List Bool :=
  inputs.hidden_word.map fun h => inputs.guess.contains h

/-- `letter_correct` as computed by `prove_game` (lines 82–86). -/
def letter_correct (inputs : GameInputs) : List Bool :=
  (inputs.hidden_word.zip inputs.guess).map fun p => p.1 == p.2

/-- The presence predicate as the specification words it (§3, §8):
`presence[i] = guess[i] ∈ word`.  Stated only for comparison with
`letter_in_word`. -/
def letter_in_word_spec (inputs : GameInputs) : List Bool :=
  inputs.guess.map fun g => inputs.hidden_word.contains g

/-- The game loop's win test (`main`, line 199):
`letter_correct.iter().all(|&b| b)`. -/
def win_condition (lc : List Bool) : Bool :=
  lc.all fun b => b

/-- `vec_to_array_32` (lines 64–68): zero-pad a byte vector to 32 bytes.
(The source panics if the vector exceeds 32 bytes; it is only ever applied
to the 5-byte hidden word.) -/
def vec_to_array_32 (v : List Nat) : List Nat :=
  v ++ List.replicate (32 - v.length) 0

/-- The public-input assignment both `prove_game` (line 111) and
`verify_game` (line 153) build:
`InputsAssignment::new(&[vec_to_array_32(inputs.hidden_word)])`. -/
def assignment_inputs (hidden_word : List Nat) : List (List Nat) :=
  [vec_to_array_32 hidden_word]

/-- Little-endian value of a byte vector, the scalar a 32-byte input
assignment denotes. -/
def scalar_of_bytes (b : List Nat) : Nat :=
  b.foldr (fun d acc => d + 256 * acc) 0

/-- The full variable vector `z = (vars, 1, inputs)` of the R1CS relation,
read at one column. -/
def z_at (nv : Nat) (vars pubs : List Nat) (col : Nat) : Nat :=
  if col < nv then vars.getD col 0
  else if col = nv then 1
  else pubs.getD (col - nv - 1) 0

/-- One row of a sparse matrix dotted with `z`. -/
def row_dot (M : List (Nat × Nat × Nat)) (z : Nat → Nat) (r : Nat) : Nat :=
  (M.filter fun e => e.1 == r).foldl (fun acc e => acc + e.2.2 * z e.2.1) 0

/-- Modelled from the spec: the witness-acceptance relation
`(A·z) ∘ (B·z) = (C·z)` componentwise (§2, §3).  All scalars in this
circuit are tiny, so `Nat` arithmetic coincides with field arithmetic. -/
def r1cs_satisfied (inst : Instance) (vars pubs : List Nat) : Bool :=
  (List.range inst.cons).all fun r =>
    row_dot inst.A (z_at inst.vars vars pubs) r
        * row_dot inst.B (z_at inst.vars vars pubs) r
      == row_dot inst.C (z_at inst.vars vars pubs) r

/-- Modelled from the spec: a `Proof` is opaque; its only observable
properties are (a) serializability to and from bytes and (b) acceptance by
`verify` against a matching commitment and public inputs, which holds for
a proof produced from a satisfying witness and fails (with overwhelming
probability, modelled as certainty) otherwise (§3, §4.4, §6).  The
commitment is determined by the constraint system it was encoded from, so
it is modelled as the `Instance` itself. -/
structure Proof where
  comm : Instance
  publicInputs : List (List Nat)
  witnessSatisfies : Bool
deriving DecidableEq

/-- Modelled from the spec: the proof wire format — a byte sequence either
parses back into the `Proof` it serialized or fails to parse at all
(§4.4 step 4, §8 serialization idempotence). -/
inductive ProofBytes where
  | wellFormed (p : Proof)
  | garbage
deriving DecidableEq

/-- Modelled from the spec: `bincode::serialize` on a proof. -/
def serialize_proof (p : Proof) : ProofBytes :=
  ProofBytes.wellFormed p

/-- Modelled from the spec: `bincode::deserialize`, `none` when the bytes
cannot be parsed into a `Proof` at all. -/
def deserialize_proof : ProofBytes → Option Proof
  | ProofBytes.wellFormed p => some p
  | ProofBytes.garbage => none

/-- Modelled from the spec: `SNARK::prove` records the commitment, the
public inputs, and whether the supplied witness satisfies the constraint
system (§4.4 step 3, §6). -/
def snark_prove (inst : Instance) (vars : List Nat) (pubs : List (List Nat)) :
    Proof :=
  ⟨inst, pubs, r1cs_satisfied inst vars (pubs.map scalar_of_bytes)⟩

/-- Modelled from the spec: `SNARK::verify` accepts exactly when the proof
was produced against the same commitment and public inputs from a
satisfying witness (§4.4 step 5, §6). -/
def snark_verify (p : Proof) (comm : Instance) (pubs : List (List Nat)) :
    Bool :=
  (p.comm == comm) && (p.publicInputs == pubs) && p.witnessSatisfies

/-- `prove_game` (lines 71–127): compute the two feedback vectors, build the
instance (`game_constraints`), assemble the witness `vars`, build the
public-input assignment from the hidden word, prove, and serialize.  The
backend steps that cannot fail for this shape (`SNARKGens::new`,
`SNARK::encode`, `VarsAssignment::new`, `InputsAssignment::new`,
`bincode::serialize`) are folded into the corresponding pure models. -/
def prove_game (hidden_word guess : List Nat) :
    Except RoundError (ProofBytes × List Bool × List Bool) := do
  let inputs : GameInputs := ⟨hidden_word, guess⟩
  let liw := letter_in_word inputs
  let lc := letter_correct inputs
  let outputs : GameOutputs := ⟨liw, lc⟩
  let inst ← game_constraints inputs outputs
  let vars ← assemble_vars inputs
  let proof := snark_prove inst vars (assignment_inputs hidden_word)
  Except.ok (serialize_proof proof, liw, lc)

/-- `verify_game` (lines 130–159): rebuild the instance with all-false
outputs, deserialize the proof (`bincode::deserialize(...).unwrap()` — a
panic when the bytes do not parse), rebuild the public-input assignment
from the hidden word, and check the proof. -/
def verify_game (hidden_word guess : List Nat) (proof_bytes : ProofBytes) :
    Except RoundError Bool := do
  let inputs : GameInputs := ⟨hidden_word, guess⟩
  let outputs : GameOutputs :=
    ⟨List.replicate NUM_DIGITS false, List.replicate NUM_DIGITS false⟩
  let inst ← game_constraints inputs outputs
  let proof ← match deserialize_proof proof_bytes with
    | some p => Except.ok p
    | none => Except.error RoundError.proofDeserializationPanic
  Except.ok (snark_verify proof inst (assignment_inputs hidden_word))

/-! ### Helper lemmas -/

/-- The very first pair of stores of the witness-assembly loop already
panics: whatever the first hidden rank is, the store at
`guess[0] + DIGIT_RANGE` targets an index `≥ 26` in a vector of length
`num_vars = 10`. -/
lemma assemble_vars_eq_error (inputs : GameInputs) :
    assemble_vars inputs = Except.error RoundError.indexOutOfBounds := by
  unfold assemble_vars
  rw [show List.range NUM_DIGITS = 0 :: [1, 2, 3, 4] from rfl, List.foldlM_cons]
  have hstep : (do
        let vars ← list_write (List.replicate num_vars 0) (inputs.hidden_word.getD 0 0) 1
        list_write vars (inputs.guess.getD 0 0 + DIGIT_RANGE) 1)
      = Except.error RoundError.indexOutOfBounds := by
    by_cases hw : inputs.hidden_word.getD 0 0 < (List.replicate num_vars (0 : Nat)).length
    · rw [show list_write (List.replicate num_vars 0) (inputs.hidden_word.getD 0 0) 1
          = Except.ok ((List.replicate num_vars 0).set (inputs.hidden_word.getD 0 0) 1) from by
        unfold list_write; exact if_pos hw]
      show list_write ((List.replicate num_vars 0).set (inputs.hidden_word.getD 0 0) 1)
          (inputs.guess.getD 0 0 + DIGIT_RANGE) 1 = Except.error RoundError.indexOutOfBounds
      unfold list_write
      rw [if_neg]
      simp only [List.length_set, List.length_replicate, num_vars, NUM_DIGITS, DIGIT_RANGE]
      omega
    · unfold list_write
      rw [if_neg hw]
      rfl
  rw [hstep]
  rfl

/-- `game_constraints` hits the out-of-bounds store of its local `vars`
loop on every input: the function panics unconditionally. -/
lemma game_constraints_eq_error (inputs : GameInputs) (outputs : GameOutputs) :
    game_constraints inputs outputs = Except.error RoundError.indexOutOfBounds := by
  unfold game_constraints
  rw [show List.range NUM_DIGITS = 0 :: [1, 2, 3, 4] from rfl, List.foldlM_cons]
  rw [assemble_vars_eq_error]
  rfl

/-- `prove_game` panics (out-of-bounds index) on every input, inside
`game_constraints`. -/
lemma prove_game_eq_error (hidden_word guess : List Nat) :
    prove_game hidden_word guess = Except.error RoundError.indexOutOfBounds := by
  simp only [prove_game]
  rw [game_constraints_eq_error]
  rfl

/-- `verify_game` panics (out-of-bounds index) on every input, inside
`game_constraints`, before ever touching the proof bytes. -/
lemma verify_game_eq_error (hidden_word guess : List Nat) (proof_bytes : ProofBytes) :
    verify_game hidden_word guess proof_bytes = Except.error RoundError.indexOutOfBounds := by
  simp only [verify_game]
  rw [game_constraints_eq_error]
  rfl

/-- A list of length five is a five-element literal. -/
lemma exists_len5 {α : Type} (l : List α) (h : l.length = 5) :
    ∃ a b c d e : α, l = [a, b, c, d, e] := by
  rcases l with _ | ⟨a, l⟩
  · simp at h
  rcases l with _ | ⟨b, l⟩
  · simp at h
  rcases l with _ | ⟨c, l⟩
  · simp at h
  rcases l with _ | ⟨d, l⟩
  · simp at h
  rcases l with _ | ⟨e, l⟩
  · simp at h
  rcases l with _ | ⟨f, l⟩
  · exact ⟨a, b, c, d, e, rfl⟩
  · simp only [List.length_cons] at h
    omega

/-- Read the hidden word back off the `A` entry list: the column indices of
the entries at even positions. -/
def hidden_of_A (A : List (Nat × Nat × Nat)) : List Nat :=
  [(A.getD 0 (0, 0, 0)).2.1, (A.getD 2 (0, 0, 0)).2.1, (A.getD 4 (0, 0, 0)).2.1,
   (A.getD 6 (0, 0, 0)).2.1, (A.getD 8 (0, 0, 0)).2.1]

/-- Read the guess back off the `B` entry list: the column indices of the
entries at odd positions (the rows `i + NUM_DIGITS`, which carry the raw
guess rank). -/
def guess_of_B (B : List (Nat × Nat × Nat)) : List Nat :=
  [(B.getD 1 (0, 0, 0)).2.1, (B.getD 3 (0, 0, 0)).2.1, (B.getD 5 (0, 0, 0)).2.1,
   (B.getD 7 (0, 0, 0)).2.1, (B.getD 9 (0, 0, 0)).2.1]

/-- Read `letter_in_word` back off the `C` entry list: the values of the
entries at even positions. -/
def liw_of_C (C : List (Nat × Nat × Nat)) : List Bool :=
  [(C.getD 0 (0, 0, 0)).2.2 == 1, (C.getD 2 (0, 0, 0)).2.2 == 1,
   (C.getD 4 (0, 0, 0)).2.2 == 1, (C.getD 6 (0, 0, 0)).2.2 == 1,
   (C.getD 8 (0, 0, 0)).2.2 == 1]

/-- Read `letter_correct` back off the `C` entry list: the values of the
entries at odd positions. -/
def lc_of_C (C : List (Nat × Nat × Nat)) : List Bool :=
  [(C.getD 1 (0, 0, 0)).2.2 == 1, (C.getD 3 (0, 0, 0)).2.2 == 1,
   (C.getD 5 (0, 0, 0)).2.2 == 1, (C.getD 7 (0, 0, 0)).2.2 == 1,
   (C.getD 9 (0, 0, 0)).2.2 == 1]

/-- The `A` matrix of `game_constraints` determines the hidden word. -/
lemma hidden_of_A_gc (inputs : GameInputs) (h : inputs.hidden_word.length = 5) :
    hidden_of_A (gc_A inputs) = inputs.hidden_word := by
  obtain ⟨w, g⟩ := inputs
  obtain ⟨a, b, c, d, e, rfl⟩ := exists_len5 w h
  rfl

/-- The `B` matrix of `game_constraints` determines the guess. -/
lemma guess_of_B_gc (inputs : GameInputs) (h : inputs.guess.length = 5) :
    guess_of_B (gc_B inputs) = inputs.guess := by
  obtain ⟨w, g⟩ := inputs
  obtain ⟨a, b, c, d, e, rfl⟩ := exists_len5 g h
  rfl

/-- Decoding a boolean from its field encoding is the identity. -/
lemma toNat_beq_one (b : Bool) : (b.toNat == 1) = b := by
  cases b <;> rfl

/-- The `C` matrix of `game_constraints` determines both output vectors. -/
lemma outputs_of_C_gc (outputs : GameOutputs)
    (h1 : outputs.letter_in_word.length = 5) (h2 : outputs.letter_correct.length = 5) :
    liw_of_C (gc_C outputs) = outputs.letter_in_word ∧
    lc_of_C (gc_C outputs) = outputs.letter_correct := by
  obtain ⟨liw, lc⟩ := outputs
  obtain ⟨a, b, c, d, e, rfl⟩ := exists_len5 liw h1
  obtain ⟨a', b', c', d', e', rfl⟩ := exists_len5 lc h2
  constructor
  · show [(a.toNat == 1), (b.toNat == 1), (c.toNat == 1), (d.toNat == 1), (e.toNat == 1)]
      = [a, b, c, d, e]
    simp only [toNat_beq_one]
  · show [(a'.toNat == 1), (b'.toNat == 1), (c'.toNat == 1), (d'.toNat == 1), (e'.toNat == 1)]
      = [a', b', c', d', e']
    simp only [toNat_beq_one]

/-- On equal word and guess, `letter_correct` is all-true. -/
lemma letter_correct_self (w : List Nat) :
    letter_correct ⟨w, w⟩ = List.replicate w.length true := by
  induction w with
  | nil => rfl
  | cons a t ih =>
      simp only [letter_correct, List.zip_cons_cons, List.map_cons, List.length_cons,
        List.replicate_succ] at ih ⊢
      simp [ih]

/-! ### Claims -/

/-- C1: the claim states that for every word and guess of length 5 over
ranks [0,26), `verify_game` accepts the bytes produced by `prove_game`.
In fact `prove_game` panics with an index-out-of-bounds inside
`game_constraints` (the store at `guess[0] + DIGIT_RANGE ≥ 26` into a
vector of length `num_vars = 10`) on every such input, so no proof bytes
are ever produced and nothing is verified. -/
theorem prove_game_always_panics (w g : List Nat) (_hw : w.length = 5)
    (_hg : g.length = 5) (_hwr : ∀ x ∈ w, x < 26) (_hgr : ∀ x ∈ g, x < 26) :
    prove_game w g = Except.error RoundError.indexOutOfBounds :=
  prove_game_eq_error w g

/-- C1 witness: the panic at a concrete round. -/
theorem prove_game_always_panics_witness :
    prove_game [0, 0, 0, 0, 0] [1, 1, 1, 1, 1] = Except.error RoundError.indexOutOfBounds :=
  prove_game_always_panics [0, 0, 0, 0, 0] [1, 1, 1, 1, 1]
    (by decide) (by decide) (by decide) (by decide)

/-- C2: the claim states `letter_in_word[i]` is true iff `g[i]` occurs in
`w`.  The source computes the swapped predicate — whether `w[i]` occurs in
`g` — and the two differ at hidden word `[0,0,0,0,0]`, guess
`[0,1,1,1,1]`: the code yields all-true while the claimed predicate yields
`[true,false,false,false,false]`.  The `letter_correct` half of the claim
does hold at this input. -/
theorem letter_in_word_is_swapped :
    letter_in_word ⟨[0, 0, 0, 0, 0], [0, 1, 1, 1, 1]⟩ = [true, true, true, true, true] ∧
    letter_in_word_spec ⟨[0, 0, 0, 0, 0], [0, 1, 1, 1, 1]⟩
      = [true, false, false, false, false] ∧
    letter_in_word ⟨[0, 0, 0, 0, 0], [0, 1, 1, 1, 1]⟩
      ≠ letter_in_word_spec ⟨[0, 0, 0, 0, 0], [0, 1, 1, 1, 1]⟩ ∧
    letter_correct ⟨[0, 0, 0, 0, 0], [0, 1, 1, 1, 1]⟩
      = [true, false, false, false, false] :=
  ⟨by decide, by decide, by decide, by decide⟩

/-- C3: the claim states the hidden word is never part of the public
inputs.  In fact the public-input assignment built by both `prove_game`
(line 111) and `verify_game` (line 153) is exactly the 32-byte zero
padding of the hidden word, from which the hidden word is recovered
verbatim by truncation. -/
theorem hidden_word_is_the_public_input (w : List Nat) (hw : w.length = 5) :
    assignment_inputs w = [w ++ List.replicate 27 0] ∧
    ((assignment_inputs w).headD []).take 5 = w := by
  constructor
  · simp [assignment_inputs, vec_to_array_32, hw]
  · show (vec_to_array_32 w).take 5 = w
    unfold vec_to_array_32
    exact List.take_left' hw

/-- C3 witness: the hidden word "ranch" appears verbatim in its own
public-input assignment. -/
theorem hidden_word_is_the_public_input_witness :
    assignment_inputs [17, 0, 13, 2, 7] = [[17, 0, 13, 2, 7] ++ List.replicate 27 0] ∧
    ((assignment_inputs [17, 0, 13, 2, 7]).headD []).take 5 = [17, 0, 13, 2, 7] :=
  hidden_word_is_the_public_input [17, 0, 13, 2, 7] (by decide)

/-- C4: the claim states every store of the witness-assembly loop is within
the bounds of the length-`num_vars` vector.  In fact the store at
`guess[0] + DIGIT_RANGE ≥ 26` is always out of bounds (`num_vars = 10`),
and the loop panics on every length-5 input over ranks [0,26). -/
theorem witness_writes_out_of_bounds (w g : List Nat) (_hw : w.length = 5)
    (_hg : g.length = 5) (_hwr : ∀ x ∈ w, x < 26) (_hgr : ∀ x ∈ g, x < 26) :
    ¬ (∀ j ∈ witness_write_indices ⟨w, g⟩, j < num_vars) ∧
    assemble_vars ⟨w, g⟩ = Except.error RoundError.indexOutOfBounds := by
  refine ⟨fun hall => ?_, assemble_vars_eq_error ⟨w, g⟩⟩
  have hmem : g.getD 0 0 + DIGIT_RANGE ∈ witness_write_indices ⟨w, g⟩ := by
    unfold witness_write_indices
    exact List.mem_flatMap.mpr ⟨0, by simp [NUM_DIGITS], by simp⟩
  have hlt := hall _ hmem
  simp only [num_vars, NUM_DIGITS, DIGIT_RANGE] at hlt
  omega

/-- C4 witness: the out-of-bounds store at a concrete round. -/
theorem witness_writes_out_of_bounds_witness :
    ¬ (∀ j ∈ witness_write_indices ⟨[1, 2, 3, 4, 5], [6, 7, 8, 9, 10]⟩, j < num_vars) ∧
    assemble_vars ⟨[1, 2, 3, 4, 5], [6, 7, 8, 9, 10]⟩
      = Except.error RoundError.indexOutOfBounds :=
  witness_writes_out_of_bounds [1, 2, 3, 4, 5] [6, 7, 8, 9, 10]
    (by decide) (by decide) (by decide) (by decide)

/-- C5: the claim states that for hidden word "ranch" and guess "chant" the
presence vector is `[true,true,true,true,false]` and prove/verify succeed.
In fact the code computes the swapped presence vector
`[false,true,true,true,true]` (its `letter_correct` does match the claimed
all-false), and `prove_game` panics before producing any proof. -/
theorem ranch_chant_scenario :
    letter_in_word ⟨[17, 0, 13, 2, 7], [2, 7, 0, 13, 19]⟩
      = [false, true, true, true, true] ∧
    letter_in_word_spec ⟨[17, 0, 13, 2, 7], [2, 7, 0, 13, 19]⟩
      = [true, true, true, true, false] ∧
    letter_correct ⟨[17, 0, 13, 2, 7], [2, 7, 0, 13, 19]⟩
      = [false, false, false, false, false] ∧
    prove_game [17, 0, 13, 2, 7] [2, 7, 0, 13, 19]
      = Except.error RoundError.indexOutOfBounds :=
  ⟨by decide, by decide, by decide, rfl⟩

/-- C6 counterexample: the claim states any two instance pairs give
identical matrices; already the `A` matrices of two rounds differing only
in the first hidden letter differ (and so do `B` under a changed guess and
`C` under changed outputs). -/
theorem game_constraints_matrices_differ_cx :
    gc_A ⟨[0, 0, 0, 0, 0], [0, 0, 0, 0, 0]⟩ ≠ gc_A ⟨[1, 0, 0, 0, 0], [0, 0, 0, 0, 0]⟩ ∧
    gc_B ⟨[0, 0, 0, 0, 0], [0, 0, 0, 0, 0]⟩ ≠ gc_B ⟨[0, 0, 0, 0, 0], [1, 0, 0, 0, 0]⟩ ∧
    gc_C ⟨[true, false, false, false, false], [false, false, false, false, false]⟩
      ≠ gc_C ⟨[false, false, false, false, false], [false, false, false, false, false]⟩ :=
  ⟨by decide, by decide, by decide⟩

/-- C6 (amended): far from being a function of `NUM_DIGITS` alone, the
matrices emitted by `game_constraints` determine the instance: `A`'s
columns are the hidden word's ranks, `B`'s encode the guess, and `C`'s
values are the output bits, so equal matrices force equal hidden words,
guesses, and output vectors. -/
theorem game_constraints_matrices_determine_instance
    (i1 i2 : GameInputs) (o1 o2 : GameOutputs)
    (h1 : i1.hidden_word.length = 5) (h2 : i2.hidden_word.length = 5)
    (h3 : i1.guess.length = 5) (h4 : i2.guess.length = 5)
    (h5 : o1.letter_in_word.length = 5) (h6 : o2.letter_in_word.length = 5)
    (h7 : o1.letter_correct.length = 5) (h8 : o2.letter_correct.length = 5) :
    (gc_A i1 = gc_A i2 → i1.hidden_word = i2.hidden_word) ∧
    (gc_B i1 = gc_B i2 → i1.guess = i2.guess) ∧
    (gc_C o1 = gc_C o2 → o1.letter_in_word = o2.letter_in_word ∧
      o1.letter_correct = o2.letter_correct) := by
  refine ⟨fun hA => ?_, fun hB => ?_, fun hC => ?_⟩
  · rw [← hidden_of_A_gc i1 h1, hA, hidden_of_A_gc i2 h2]
  · rw [← guess_of_B_gc i1 h3, hB, guess_of_B_gc i2 h4]
  · obtain ⟨e1, e2⟩ := outputs_of_C_gc o1 h5 h7
    obtain ⟨e3, e4⟩ := outputs_of_C_gc o2 h6 h8
    exact ⟨by rw [← e1, hC, e3], by rw [← e2, hC, e4]⟩

/-- C6 witness: the determination statement at two concrete rounds. -/
theorem game_constraints_matrices_determine_instance_witness :
    (gc_A ⟨[17, 0, 13, 2, 7], [2, 7, 0, 13, 19]⟩ = gc_A ⟨[0, 1, 2, 3, 4], [5, 6, 7, 8, 9]⟩ →
      ([17, 0, 13, 2, 7] : List Nat) = [0, 1, 2, 3, 4]) ∧
    (gc_B ⟨[17, 0, 13, 2, 7], [2, 7, 0, 13, 19]⟩ = gc_B ⟨[0, 1, 2, 3, 4], [5, 6, 7, 8, 9]⟩ →
      ([2, 7, 0, 13, 19] : List Nat) = [5, 6, 7, 8, 9]) ∧
    (gc_C ⟨[true, true, false, false, true], [false, false, true, true, false]⟩
        = gc_C ⟨[false, true, true, true, true], [false, false, false, false, false]⟩ →
      ([true, true, false, false, true] : List Bool) = [false, true, true, true, true] ∧
      ([false, false, true, true, false] : List Bool) = [false, false, false, false, false]) :=
  game_constraints_matrices_determine_instance
    ⟨[17, 0, 13, 2, 7], [2, 7, 0, 13, 19]⟩ ⟨[0, 1, 2, 3, 4], [5, 6, 7, 8, 9]⟩
    ⟨[true, true, false, false, true], [false, false, true, true, false]⟩
    ⟨[false, true, true, true, true], [false, false, false, false, false]⟩
    (by decide) (by decide) (by decide) (by decide)
    (by decide) (by decide) (by decide) (by decide)

/-- C7: the claim states every `(row, column)` of the emitted entry lists
is within the declared shape, so `Instance::new` succeeds.  In fact every
`B` entry at a row below `NUM_DIGITS` has column `guess[i] + DIGIT_RANGE ≥
26`, beyond the declared `num_vars + 1 + num_inputs = 21`, so the shape
check fails and the construction is rejected on every input. -/
theorem instance_new_rejects_game_matrices (inputs : GameInputs) (outputs : GameOutputs)
    (_hwr : ∀ x ∈ inputs.hidden_word, x < 26) (_hgr : ∀ x ∈ inputs.guess, x < 26) :
    entries_in_shape num_cons num_vars num_inputs (gc_B inputs) = false ∧
    instance_new num_cons num_vars num_inputs (gc_A inputs) (gc_B inputs) (gc_C outputs)
      = Except.error RoundError.shapeMismatch := by
  have hB : entries_in_shape num_cons num_vars num_inputs (gc_B inputs) = false := by
    unfold entries_in_shape
    rw [List.all_eq_false]
    refine ⟨(0, inputs.guess.getD 0 0 + DIGIT_RANGE, 1), ?_, ?_⟩
    · unfold gc_B
      exact List.mem_flatMap.mpr ⟨0, by simp [NUM_DIGITS], by simp⟩
    · simp only [Bool.and_eq_true, decide_eq_true_eq, not_and, num_cons, num_vars,
        num_inputs, NUM_DIGITS, DIGIT_RANGE]
      intro _
      omega
  exact ⟨hB, by simp [instance_new, hB]⟩

/-- C7 witness: the rejection at a concrete round. -/
theorem instance_new_rejects_game_matrices_witness :
    entries_in_shape num_cons num_vars num_inputs
      (gc_B ⟨[0, 1, 2, 3, 4], [5, 6, 7, 8, 9]⟩) = false ∧
    instance_new num_cons num_vars num_inputs
      (gc_A ⟨[0, 1, 2, 3, 4], [5, 6, 7, 8, 9]⟩)
      (gc_B ⟨[0, 1, 2, 3, 4], [5, 6, 7, 8, 9]⟩)
      (gc_C ⟨[true, false, true, false, true], [false, true, false, true, false]⟩)
      = Except.error RoundError.shapeMismatch :=
  instance_new_rejects_game_matrices ⟨[0, 1, 2, 3, 4], [5, 6, 7, 8, 9]⟩
    ⟨[true, false, true, false, true], [false, true, false, true, false]⟩
    (by decide) (by decide)

/-- C8: the claim states `verify_game` returns false (without panicking) on
a parseable-but-invalid proof and signals a distinct deserialization error
on unparseable bytes.  In fact it panics with an index-out-of-bounds
inside `game_constraints` on every round, whatever the proof bytes, and
never reaches its (unwrap-based, hence also panicking) deserialization. -/
theorem verify_game_panics_regardless_of_proof_bytes (w g : List Nat)
    (bytes : ProofBytes) (_hw : w.length = 5) (_hg : g.length = 5)
    (_hwr : ∀ x ∈ w, x < 26) (_hgr : ∀ x ∈ g, x < 26) :
    verify_game w g bytes = Except.error RoundError.indexOutOfBounds ∧
    verify_game w g bytes ≠ Except.error RoundError.proofDeserializationPanic := by
  refine ⟨verify_game_eq_error w g bytes, ?_⟩
  rw [verify_game_eq_error]
  simp

/-- C8 witness: the panic on a concrete round with unparseable bytes. -/
theorem verify_game_panics_regardless_of_proof_bytes_witness :
    verify_game [3, 3, 3, 3, 3] [4, 4, 4, 4, 4] ProofBytes.garbage
      = Except.error RoundError.indexOutOfBounds ∧
    verify_game [3, 3, 3, 3, 3] [4, 4, 4, 4, 4] ProofBytes.garbage
      ≠ Except.error RoundError.proofDeserializationPanic :=
  verify_game_panics_regardless_of_proof_bytes [3, 3, 3, 3, 3] [4, 4, 4, 4, 4]
    ProofBytes.garbage (by decide) (by decide) (by decide) (by decide)

/-- C9: the claim states the prover locally checks the witness against the
constraints and raises `WitnessConstraintViolation` before calling the
backend.  The source contains no such check: `prove_game` never produces
that error on any round (it panics with an index-out-of-bounds long before
any witness validation could run). -/
theorem prove_game_never_raises_witness_violation (w g : List Nat)
    (_hw : w.length = 5) (_hg : g.length = 5)
    (_hwr : ∀ x ∈ w, x < 26) (_hgr : ∀ x ∈ g, x < 26) :
    prove_game w g ≠ Except.error RoundError.witnessConstraintViolation := by
  rw [prove_game_eq_error]
  simp

/-- C9 witness: no `WitnessConstraintViolation` at a concrete round. -/
theorem prove_game_never_raises_witness_violation_witness :
    prove_game [5, 5, 5, 5, 5] [6, 6, 6, 6, 6]
      ≠ Except.error RoundError.witnessConstraintViolation :=
  prove_game_never_raises_witness_violation [5, 5, 5, 5, 5] [6, 6, 6, 6, 6]
    (by decide) (by decide) (by decide) (by decide)

/-- C10 counterexample: at the concrete all-correct round with hidden word
and guess both `[2,2,2,2,2]`, `prove_game` panics, so it returns no
`letter_correct` vector at all and the game loop's win test is never
reached. -/
theorem win_case_prove_game_panics_cx :
    prove_game [2, 2, 2, 2, 2] [2, 2, 2, 2, 2] = Except.error RoundError.indexOutOfBounds :=
  rfl

/-- C10 (amended): when the guess equals the hidden word, the
`letter_correct` vector `prove_game` computes (lines 82–86, before the
panic) is all-true, and the game loop's win condition holds on it;
`prove_game` however panics before returning it. -/
theorem letter_correct_all_true_when_guess_equals_word (w g : List Nat)
    (hw : w.length = 5) (_hwr : ∀ x ∈ w, x < 26) (hgw : g = w) :
    letter_correct ⟨w, g⟩ = List.replicate 5 true ∧
    win_condition (letter_correct ⟨w, g⟩) = true := by
  subst hgw
  rw [letter_correct_self, hw]
  exact ⟨rfl, by decide⟩

/-- C10 witness: the all-correct feedback at a concrete round. -/
theorem letter_correct_all_true_when_guess_equals_word_witness :
    letter_correct ⟨[3, 3, 3, 3, 3], [3, 3, 3, 3, 3]⟩ = List.replicate 5 true ∧
    win_condition (letter_correct ⟨[3, 3, 3, 3, 3], [3, 3, 3, 3, 3]⟩) = true :=
  letter_correct_all_true_when_guess_equals_word [3, 3, 3, 3, 3] [3, 3, 3, 3, 3]
    (by decide) (by decide) rfl

end ZkWordle
